import Mathlib

/-!
Verification development for the backend-file structural scanner of the
repository (BackendFileScanner in the scanner service, AdvancedCodeAnalyzer,
and the pattern tables of the backendFile type module).

The JavaScript/TypeScript source is shallowly embedded: regex literals are
translated into an executable regular-expression AST (`RE`) with a
backtracking matcher that reproduces the relevant JS `RegExp` semantics
(leftmost match, left-biased alternation, greedy character-class repetition
with backtracking, `exec`-loop iteration for `/g` patterns), strings are
worked on as `List Char`, and the filesystem effects of the scan are
modelled with an explicit directory-tree value.
-/

namespace Scanner

/-! ## Character classes (JS escape classes, ASCII scope of the source data) -/

/-- JS `\w` character class: letters, digits, underscore. -/
def isWordCh (c : Char) : Bool := c.isAlpha || c.isDigit || c == '_'

/-- JS `\s` character class (ASCII whitespace forms). -/
def isWsCh (c : Char) : Bool :=
  c == ' ' || c == '\t' || c == '\n' || c == '\r' || c == '\x0b' || c == '\x0c'

/-- JS `.` without the s flag: any character except line terminators. -/
def isDotCh (c : Char) : Bool := !(c == '\n' || c == '\r')

/-! ## Regular-expression AST

Repetition (`starC`, and `rplusC`/`rrep` built from it) is restricted to
single-character classes, which covers every repetition occurring in the
source's regex literals; this keeps the matcher structurally terminating. -/

inductive RE where
  | eps : RE
  | cls (p : Char → Bool) : RE
  | seq (a b : RE) : RE
  | alt (a b : RE) : RE
  | starC (p : Char → Bool) : RE
  | grp (idx : Nat) (r : RE) : RE
  | eos : RE

/-- Capture list: group index paired with captured characters; the most
recent binding of a group is first. -/
abbrev Caps := List (Nat × List Char)

/-- Greedy repetition of a character class: try consuming `n` characters
first, backtracking one character at a time, exactly as a JS greedy
class-star does. -/
def starGreedy : Nat → List Char → Caps →
    (List Char → Caps → Option (List Char × Caps)) → Option (List Char × Caps)
  | 0, s, caps, k => k s caps
  | n + 1, s, caps, k =>
    match k (s.drop (n + 1)) caps with
    | some r => some r
    | none => starGreedy n s caps k

/-- Backtracking matcher in continuation-passing style. Alternatives are
tried left first and repetition greedily, so the first success is the match
a JS `RegExp` would produce. -/
def reMatch : RE → List Char → Caps →
    (List Char → Caps → Option (List Char × Caps)) → Option (List Char × Caps)
  | .eps, s, caps, k => k s caps
  | .cls p, s, caps, k =>
    match s with
    | [] => none
    | c :: rest => if p c then k rest caps else none
  | .seq a b, s, caps, k => reMatch a s caps (fun s1 c1 => reMatch b s1 c1 k)
  | .alt a b, s, caps, k =>
    match reMatch a s caps k with
    | some r => some r
    | none => reMatch b s caps k
  | .starC p, s, caps, k => starGreedy (s.takeWhile p).length s caps k
  | .grp i r, s, caps, k =>
    reMatch r s caps (fun s1 c1 => k s1 ((i, s.take (s.length - s1.length)) :: c1))
  | .eos, s, caps, k =>
    match s with
    | [] => k s caps
    | _ :: _ => none

/-- Attempt a match anchored at the start of `s`; returns matched length and
captures. -/
def reMatchHere (r : RE) (s : List Char) : Option (Nat × Caps) :=
  match reMatch r s [] (fun rest caps => some (rest, caps)) with
  | some (rest, caps) => some (s.length - rest.length, caps)
  | none => none

/-- Scan for the leftmost match at position at least `i` (JS unanchored
search). Returns (index, length, captures). -/
def reSearch (r : RE) : List Char → Nat → Option (Nat × Nat × Caps)
  | [], i =>
    match reMatchHere r [] with
    | some (len, caps) => some (i, len, caps)
    | none => none
  | c :: rest, i =>
    match reMatchHere r (c :: rest) with
    | some (len, caps) => some (i, len, caps)
    | none => reSearch r rest (i + 1)

/-- JS `RegExp.test`: does the pattern match anywhere in the text. -/
def reTest (r : RE) (s : List Char) : Bool := (reSearch r s 0).isSome

/-- Iterated `exec` over a `/g` regex: all matches left to right, resuming
at `lastIndex = index + length`. The source's global regexes always consume
at least one character, so advancing by `max len 1` agrees with `exec` and
guarantees progress. Fuel bounds the iteration count by the text length. -/
def reFindAllAux (r : RE) (content : List Char) : Nat → Nat → List (Nat × Nat × Caps)
  | 0, _ => []
  | fuel + 1, pos =>
    match reSearch r (content.drop pos) pos with
    | none => []
    | some (idx, len, caps) =>
      (idx, len, caps) :: reFindAllAux r content fuel (idx + max len 1)

/-- All matches of a global regex over `content`. -/
def reFindAll (r : RE) (content : List Char) : List (Nat × Nat × Caps) :=
  reFindAllAux r content (content.length + 1) 0

/-- Value of a capture group (most recent binding), JS `match[i]`. -/
def capGet (caps : Caps) (i : Nat) : Option (List Char) :=
  (caps.find? (fun e => e.fst == i)).map (fun e => e.snd)

/-- Value of a capture group as a list, empty when unset. -/
def capGetD (caps : Caps) (i : Nat) : List Char := (capGet caps i).getD []

/-! ## Regex combinators used to transcribe the source literals -/

/-- Case-insensitive literal character (the source patterns carry the i flag
unless noted otherwise). -/
def lci (c : Char) : RE := .cls (fun d => d.toLower == c.toLower)

/-- Case-sensitive literal character. -/
def lcs (c : Char) : RE := .cls (fun d => d == c)

def rseq (l : List RE) : RE := l.foldr RE.seq RE.eps

/-- Case-insensitive literal string. -/
def litCI (s : String) : RE := rseq (s.data.map lci)

/-- Case-sensitive literal string. -/
def litCS (s : String) : RE := rseq (s.data.map lcs)

def ralt : List RE → RE
  | [] => .cls (fun _ => false)
  | [r] => r
  | r :: rs => .alt r (ralt rs)

def ropt (r : RE) : RE := .alt r .eps

/-- One-or-more repetition of a character class. -/
def rplusC (p : Char → Bool) : RE := .seq (.cls p) (.starC p)

/-- Exactly-n repetition of a character class (JS bounded quantifier). -/
def rrep (p : Char → Bool) : Nat → RE
  | 0 => .eps
  | n + 1 => .seq (.cls p) (rrep p n)

def wsStar : RE := .starC isWsCh

def wsPlus : RE := rplusC isWsCh

def dotStar : RE := .starC isDotCh

/-! ## List-of-characters string helpers (JS string methods) -/

/-- JS `String.prototype.includes` (case sensitive): `pat` occurs in `text`. -/
def containsSub : List Char → List Char → Bool
  | [], pat => pat.isEmpty
  | c :: rest, pat => pat.isPrefixOf (c :: rest) || containsSub rest pat

def lowerL (l : List Char) : List Char := l.map Char.toLower

def upperL (l : List Char) : List Char := l.map Char.toUpper

/-- JS `text.toLowerCase().includes(pat)` for a lowercase needle. -/
def containsCI (text pat : List Char) : Bool := containsSub (lowerL text) (lowerL pat)

/-- JS `String.prototype.trim`. -/
def trimL (l : List Char) : List Char :=
  ((l.dropWhile isWsCh).reverse.dropWhile isWsCh).reverse

/-- JS `String.prototype.split` on a single separator character. -/
def splitOnCh (sep : Char) : List Char → List (List Char)
  | [] => [[]]
  | c :: rest =>
    let r := splitOnCh sep rest
    if c == sep then [] :: r
    else
      match r with
      | [] => [[c]]
      | h :: t => (c :: h) :: t

/-- Lines of a text, JS `content.split(chr(10))`. -/
def splitLines (l : List Char) : List (List Char) := splitOnCh '\n' l

/-- Number of newline characters in the first `i` characters. -/
def countNlTake (content : List Char) (i : Nat) : Nat :=
  (content.take i).countP (fun c => c == '\n')

/-- One-based line number of character offset `i`, which is what the
source's `content.substring(0, index).split` line computation yields. -/
def lineOfIdx (content : List Char) (i : Nat) : Nat := countNlTake content i + 1

/-- Total number of lines of a text (newline count plus one). -/
def numLines (content : List Char) : Nat := (splitLines content).length

/-- Helper: characters of a string literal. -/
def strL (s : String) : List Char := s.data

/-! ## Data model (types module of the source) -/

/-- Backend file roles (`BackendFileType` union in the source, with the
`unknown` fallback folded in as in `detectFileType`). -/
inductive BackendFileType where
  | controller | model | route | service | middleware | config | unknown
deriving Repr, DecidableEq, BEq

/-- HTTP methods of `ApiEndpoint.method`. -/
inductive HttpMethod where
  | GET | POST | PUT | DELETE | PATCH
deriving Repr, DecidableEq, BEq

structure ApiEndpoint where
  id : String
  method : HttpMethod
  path : String
  functionName : String
  line : Nat
deriving Repr, DecidableEq, BEq

/-- The `ThirdPartyProvider` union type. -/
inductive ThirdPartyProvider where
  | supabase | openai | anthropic | slack | discord
  | google | github | stripe | twilio | sendgrid
  | aws | azure | gcp | firebase | mongodb
  | postgresql | mysql | redis | prisma | drizzle
  | express | fastify | koa | nestjs | unknown
deriving Repr, DecidableEq, BEq

/-- String name of a provider, for template-literal interpolation sites. -/
def providerName : ThirdPartyProvider → String
  | .supabase => "supabase" | .openai => "openai" | .anthropic => "anthropic"
  | .slack => "slack" | .discord => "discord" | .google => "google"
  | .github => "github" | .stripe => "stripe" | .twilio => "twilio"
  | .sendgrid => "sendgrid" | .aws => "aws" | .azure => "azure"
  | .gcp => "gcp" | .firebase => "firebase" | .mongodb => "mongodb"
  | .postgresql => "postgresql" | .mysql => "mysql" | .redis => "redis"
  | .prisma => "prisma" | .drizzle => "drizzle" | .express => "express"
  | .fastify => "fastify" | .koa => "koa" | .nestjs => "nestjs"
  | .unknown => "unknown"

inductive CodeBlockType where
  | api_call | db_query | auth_check | file_operation | third_party
deriving Repr, DecidableEq, BEq

inductive Importance where
  | low | medium | high | critical
deriving Repr, DecidableEq, BEq

structure CodeBlock where
  id : String
  type : CodeBlockType
  provider : Option ThirdPartyProvider
  startLine : Nat
  endLine : Nat
  code : String
  description : String
  importance : Importance
deriving Repr, DecidableEq, BEq

/-- Kinds of `BackendFunction.type`; `fn` stands for the source's
`function` literal (a Lean keyword). -/
inductive FunctionKind where
  | fn | method | endpoint | middleware
deriving Repr, DecidableEq, BEq

structure FunctionCall where
  id : String
  functionName : String
  filePath : Option String
  line : Nat
  isExternal : Bool
  isThirdParty : Bool
  provider : Option ThirdPartyProvider
deriving Repr, DecidableEq, BEq

structure BackendFunction where
  id : String
  name : String
  type : FunctionKind
  startLine : Nat
  endLine : Nat
  parameters : List String
  isAsync : Bool
  isExported : Bool
  httpMethod : Option HttpMethod
  route : Option String
  codeBlocks : List CodeBlock
  calls : List FunctionCall
deriving Repr, DecidableEq, BEq

/-- Kinds of `BackendClass.type`; `classDecl` stands for the source's
`class` literal and `typeAlias` for `type` (Lean keywords). -/
inductive ClassKind where
  | classDecl | interface | typeAlias
deriving Repr, DecidableEq, BEq

structure BackendClass where
  id : String
  name : String
  type : ClassKind
  startLine : Nat
  endLine : Nat
  methods : List BackendFunction
  properties : List String
  extendsClause : Option String
  implementsClause : List String
  isExported : Bool
deriving Repr, DecidableEq, BEq

/-- A scanned file. `lastModified` (a wall-clock `Date` the source fills
with `new Date()`) is not modelled. Fields the source leaves `undefined`
before advanced analysis are modelled with empty defaults. -/
structure BackendFile where
  id : String
  name : String
  path : String
  relativePath : String
  type : BackendFileType
  size : Nat
  content : String
  imports : List String
  exports : List String
  endpoints : List ApiEndpoint
  dependencies : List String
  functions : List BackendFunction
  classes : List BackendClass
  codeBlocks : List CodeBlock
  isExpanded : Bool
  position : Option (Nat × Nat)
deriving Repr, DecidableEq, BEq

/-- `FileRelationship.type`; `importRel` stands for the source's `import`
literal (a Lean keyword), the others keep their source spelling. -/
inductive RelationshipType where
  | importRel | export | dependency | function_call | api_call
deriving Repr, DecidableEq, BEq

structure FileRelationship where
  id : String
  sourceId : String
  targetId : String
  type : RelationshipType
  label : Option String
  sourceFunction : Option String
  targetFunction : Option String
deriving Repr, DecidableEq, BEq

/-- Snapshot type (`BackendFileAnalysis`); `lastScanned` is a wall-clock
timestamp in the source and is modelled as `Unit`. -/
structure BackendFileAnalysis where
  files : List BackendFile
  relationships : List FileRelationship
  projectPath : String
  lastScanned : Unit
deriving Repr, DecidableEq, BEq

/-! ## Pattern tables (types module of the source)

Each JS regex literal is transcribed into an `RE` term; `.(js|ts)$`-shaped
endings use `extJsTs`, optional plural directory segments use `dirSeg`. All
patterns in these two tables carry the i flag, hence `litCI`. -/

/-- Alternation of the two extensions with end-of-string anchor, the shape
`(js|ts)$` preceded by a literal stem. -/
def extJsTs (stem : String) : RE :=
  rseq [litCI stem, ralt [litCI "js", litCI "ts"], RE.eos]

/-- Directory-segment pattern with optional plural, e.g. the shape of a
slash, a stem, an optional s, and a slash. -/
def dirSeg (stem : String) : RE :=
  rseq [litCI "/", litCI stem, ropt (lci 's'), litCI "/"]

def methodAltCI : RE :=
  ralt [litCI "get", litCI "post", litCI "put", litCI "delete", litCI "patch"]

/-- The controller row of `FILE_TYPE_PATTERNS`. -/
def controllerPathPats : List RE :=
  [ dirSeg "controller",
    rseq [litCI "/api/", dotStar, litCI "controller"],
    extJsTs "controller.",
    extJsTs ".controller." ]

/-- The model row of `FILE_TYPE_PATTERNS`. -/
def modelPathPats : List RE :=
  [ dirSeg "model",
    dirSeg "schema",
    extJsTs "model.",
    extJsTs ".model.",
    extJsTs "schema.",
    extJsTs ".schema." ]

/-- The route row of `FILE_TYPE_PATTERNS`. -/
def routePathPats : List RE :=
  [ dirSeg "route",
    litCI "/api/routes",
    extJsTs "route.",
    extJsTs ".route.",
    extJsTs "routes." ]

/-- The service row of `FILE_TYPE_PATTERNS`. -/
def servicePathPats : List RE :=
  [ dirSeg "service",
    extJsTs "service.",
    extJsTs ".service." ]

/-- The middleware row of `FILE_TYPE_PATTERNS`. -/
def middlewarePathPats : List RE :=
  [ litCI "/middleware/",
    extJsTs "middleware.",
    extJsTs ".middleware." ]

/-- The config row of `FILE_TYPE_PATTERNS`. -/
def configPathPats : List RE :=
  [ litCI "/config/",
    extJsTs "config.",
    extJsTs ".config.",
    litCI ".env" ]

/-- `FILE_TYPE_PATTERNS`, in object-literal (iteration) order. -/
def FILE_TYPE_PATTERNS : List (BackendFileType × List RE) :=
  [ (.controller, controllerPathPats),
    (.model, modelPathPats),
    (.route, routePathPats),
    (.service, servicePathPats),
    (.middleware, middlewarePathPats),
    (.config, configPathPats) ]

/-- The controller row of `CONTENT_TYPE_PATTERNS`. -/
def controllerContentPats : List RE :=
  [ rseq [litCI "app.", methodAltCI],
    rseq [litCI "router.", methodAltCI],
    litCI "express.Router",
    litCI "@Controller",
    ralt [litCI "@Get", litCI "@Post", litCI "@Put", litCI "@Delete"] ]

/-- The model row of `CONTENT_TYPE_PATTERNS`. -/
def modelContentPats : List RE :=
  [ litCI "Schema",
    rseq [litCI "model", wsStar, litCI "="],
    litCI "mongoose.model",
    litCI "sequelize.define",
    litCI "@Entity",
    litCI "@Table" ]

/-- The route row of `CONTENT_TYPE_PATTERNS`. -/
def routeContentPats : List RE :=
  [ litCI "router.",
    rseq [litCI "app.", ralt [litCI "use", litCI "get", litCI "post"]],
    litCI "express.Router",
    litCI "Route." ]

/-- The service row of `CONTENT_TYPE_PATTERNS`. -/
def serviceContentPats : List RE :=
  [ rseq [litCI "class", dotStar, litCI "Service"],
    rseq [litCI "export", dotStar, litCI "Service"],
    litCI "service" ]

/-- The middleware row of `CONTENT_TYPE_PATTERNS`. -/
def middlewareContentPats : List RE :=
  [ litCI "next()",
    litCI "middleware",
    rseq [litCI "(req,", wsStar, litCI "res,", wsStar, litCI "next)"] ]

/-- `CONTENT_TYPE_PATTERNS`, in object-literal (iteration) order. -/
def CONTENT_TYPE_PATTERNS : List (BackendFileType × List RE) :=
  [ (.controller, controllerContentPats),
    (.model, modelContentPats),
    (.route, routeContentPats),
    (.service, serviceContentPats),
    (.middleware, middlewareContentPats) ]

/-- `BACKEND_FILE_EXTENSIONS`. -/
def BACKEND_FILE_EXTENSIONS : List String :=
  [".js", ".ts", ".jsx", ".tsx", ".py", ".php", ".go", ".rb",
   ".java", ".cs", ".cpp", ".c"]

/-! ## Third-party provider signature table (AdvancedCodeAnalyzer)

Transcription of `THIRD_PARTY_PATTERNS`, in object-literal order; every
pattern carries the i flag. `between a b` is the shape of a literal, any
characters, and a second literal. -/

def between (a b : String) : RE := rseq [litCI a, dotStar, litCI b]

/-- Character class of the twilio SID pattern (letters-or-digits under the
i flag). -/
def isAlnumCh (c : Char) : Bool := c.isAlpha || c.isDigit

/-- Character class of the sendgrid key pattern: letters, digits,
underscore, hyphen. -/
def isKeyCh (c : Char) : Bool := c.isAlpha || c.isDigit || c == '_' || c == '-'

def THIRD_PARTY_PATTERNS : List (ThirdPartyProvider × List RE) :=
  [ (.supabase,
      [ litCI "supabase.from(",
        between "createClient" "supabase",
        litCI "@supabase",
        ralt [litCI "supabaseUrl", litCI "supabaseKey"],
        ralt [litCI ".insert(", litCI ".select(", litCI ".update(", litCI ".delete("],
        ralt [litCI ".auth.signIn", litCI ".auth.signUp", litCI ".auth.signOut"],
        ralt [litCI "SUPABASE_URL", litCI "SUPABASE_ANON_KEY"] ]),
    (.openai,
      [ litCI "openai.",
        litCI "new OpenAI",
        litCI "chat.completions.create",
        ralt [litCI "gpt-", litCI "text-davinci"] ]),
    (.anthropic,
      [ litCI "anthropic.",
        litCI "new Anthropic",
        litCI "claude-",
        litCI "@anthropic-ai" ]),
    (.slack,
      [ between "slack" "api",
        between "WebClient" "slack",
        between "slack" "webhook",
        ralt [litCI "xoxb-", litCI "xoxp-"] ]),
    (.discord,
      [ litCI "discord.js",
        between "new Client" "discord",
        between ".send(" "embed",
        between "discord" "webhook" ]),
    (.google,
      [ litCI "googleapis",
        litCI "google.auth",
        litCI "sheets.spreadsheets",
        litCI "drive.files" ]),
    (.github,
      [ litCI "octokit",
        between "github" "api",
        litCI "repos.get",
        between ".git" "api" ]),
    (.stripe,
      [ litCI "stripe.",
        litCI "new Stripe",
        litCI "paymentIntents",
        ralt [litCI "sk_test_", litCI "sk_live_"] ]),
    (.twilio,
      [ litCI "twilio.",
        litCI "new Twilio",
        litCI "messages.create",
        rseq [litCI "AC", rrep isAlnumCh 32] ]),
    (.sendgrid,
      [ litCI "sendgrid",
        litCI "@sendgrid/mail",
        litCI "sgMail.send",
        rseq [litCI "SG.", rrep isKeyCh 69] ]),
    (.aws,
      [ litCI "aws-sdk",
        litCI "new AWS.",
        litCI ".s3.",
        litCI ".lambda.",
        rseq [litCI "AKIA", rrep isAlnumCh 16] ]),
    (.azure,
      [ litCI "@azure",
        between "azure" "client",
        litCI ".azure.",
        litCI "DefaultAzureCredential" ]),
    (.gcp,
      [ litCI "google-cloud",
        litCI ".googleapis.com",
        litCI "gcloud",
        litCI "service-account" ]),
    (.firebase,
      [ litCI "firebase",
        litCI "initializeApp",
        litCI "firestore",
        litCI ".collection(" ]),
    (.mongodb,
      [ litCI "mongodb",
        litCI "mongoose",
        between ".connect" "mongo",
        litCI "new MongoClient" ]),
    (.postgresql,
      [ ralt [litCI "pg.", litCI "postgres"],
        between "new Pool" "postgres",
        litCI ".query(",
        between "SELECT" "FROM" ]),
    (.mysql,
      [ litCI "mysql",
        between "createConnection" "mysql",
        between ".query" "SELECT",
        litCI "mysql://" ]),
    (.redis,
      [ litCI "redis",
        between "createClient" "redis",
        ralt [litCI ".get(", litCI ".set("],
        litCI "redis://" ]),
    (.prisma,
      [ litCI "@prisma/client",
        litCI "new PrismaClient",
        litCI "prisma.",
        ralt [litCI ".findMany(", litCI ".create("] ]),
    (.drizzle,
      [ litCI "drizzle-orm",
        litCI "drizzle(",
        litCI ".select().from(",
        ralt [litCI "eq(", litCI "like(", litCI "gt("] ]),
    (.express,
      [ litCI "express()",
        ralt [litCI "app.get(", litCI "app.post("],
        ralt [litCI "req.", litCI "res."],
        litCI "middleware" ]),
    (.fastify,
      [ litCI "fastify(",
        litCI ".register(",
        litCI "reply.send",
        between "fastify" "plugin" ]),
    (.koa,
      [ litCI "new Koa",
        litCI "ctx.",
        between "koa" "router",
        between ".use(" "koa" ]),
    (.nestjs,
      [ litCI "@nestjs",
        ralt [litCI "@Controller(", litCI "@Get(", litCI "@Post("],
        litCI "@Injectable(",
        litCI "NestFactory.create" ]),
    (.unknown, [dotStar]) ]

/-! ## Operation-category detector tables (AdvancedCodeAnalyzer helpers) -/

def dbPatterns : List RE :=
  [ between "SELECT" "FROM",
    between "INSERT" "INTO",
    between "UPDATE" "SET",
    between "DELETE" "FROM",
    ralt [litCI ".find(", litCI ".findOne(", litCI ".findMany("],
    ralt [litCI ".create(", litCI ".update(", litCI ".delete("],
    litCI ".query(",
    litCI ".exec()" ]

def authPatterns : List RE :=
  [ ralt [litCI "jwt.", litCI "jsonwebtoken"],
    litCI "passport.",
    ralt [litCI "auth", litCI "authenticate", litCI "authorize"],
    between "verify" "token",
    ralt [litCI "login", litCI "logout", litCI "signin", litCI "signup"],
    ralt [litCI "bcrypt", between "hash" "password"] ]

def filePatterns : List RE :=
  [ ralt [litCI "fs.", litCI "filesystem"],
    ralt [litCI "readFile", litCI "writeFile", litCI "createFile"],
    ralt [litCI ".read(", litCI ".write(", litCI ".create("],
    ralt [litCI "multer", litCI "upload"],
    ralt [litCI "path.join", litCI "path.resolve"] ]

/-! ## Extraction regexes of BackendFileScanner (case sensitive, no i flag) -/

def isQuoteCh (c : Char) : Bool := c == '\x27' || c == '\x22' || c == '\x60'

def notQuoteCh (c : Char) : Bool := !(isQuoteCh c)

/-- Class of the import-clause characters: word, whitespace, braces, comma,
star. -/
def importClauseCh (c : Char) : Bool :=
  isWordCh c || isWsCh c || c == '\x7b' || c == '\x7d' || c == ',' || c == '*'

def notRParenCh (c : Char) : Bool := c != ')'

def notRBraceCh (c : Char) : Bool := c != '\x7d'

def notLBraceCh (c : Char) : Bool := c != '\x7b'

/-- Class of an opening brace or a colon. -/
def braceColonCh (c : Char) : Bool := c == '\x7b' || c == ':'

def quoteCls : RE := .cls isQuoteCh

/-- Quoted-string capture: a quote, group `g` of non-quote characters, a
quote. -/
def quotedGrp (g : Nat) : RE :=
  rseq [quoteCls, .grp g (rplusC notQuoteCh), quoteCls]

/-- The ES6 import regex of `extractImports`. -/
def es6ImportRegex : RE :=
  rseq [litCS "import", wsPlus,
        ropt (rseq [rplusC importClauseCh, wsPlus, litCS "from", wsPlus]),
        quotedGrp 1]

/-- The CommonJS require regex of `extractImports`. -/
def cjsRequireRegex : RE :=
  rseq [litCS "require", wsStar, litCS "(", wsStar, quotedGrp 1, wsStar, litCS ")"]

/-- The named-export regex of `extractExports`. -/
def namedExportRegex : RE :=
  rseq [litCS "export", wsStar, lcs '\x7b', wsStar,
        .grp 1 (rplusC notRBraceCh), wsStar, lcs '\x7d']

/-- The direct-export regex of `extractExports`. -/
def directExportRegex : RE :=
  rseq [litCS "export", wsPlus,
        ralt [litCS "const", litCS "let", litCS "var", litCS "function",
              litCS "class", rseq [litCS "async", wsPlus, litCS "function"]],
        wsPlus, .grp 1 (rplusC isWordCh)]

/-- The default-export test of `extractExports`. -/
def defaultExportRegex : RE := rseq [litCS "export", wsPlus, litCS "default"]

def methodAltCS : RE :=
  ralt [litCS "get", litCS "post", litCS "put", litCS "delete", litCS "patch"]

/-- The Express-style endpoint regex of `extractEndpoints`. -/
def expressEndpointRegex : RE :=
  rseq [ralt [litCS "app", litCS "router"], litCS ".", .grp 1 methodAltCS,
        wsStar, litCS "(", wsStar, quotedGrp 2]

/-- The decorator-style endpoint regex of `extractEndpoints`. -/
def decoratorEndpointRegex : RE :=
  rseq [litCS "@",
        .grp 1 (ralt [litCS "Get", litCS "Post", litCS "Put", litCS "Delete", litCS "Patch"]),
        wsStar, litCS "(", wsStar, quotedGrp 2, wsStar, litCS ")"]

/-! ## File classification (detectFileType) -/

/-- First role of an ordered role-to-patterns table whose pattern list has a
match, the body of the two `detectFileType` loops. -/
def firstRoleMatch (table : List (BackendFileType × List RE)) (text : List Char) :
    Option BackendFileType :=
  (table.find? (fun e => e.snd.any (fun r => reTest r text))).map (fun e => e.fst)

/-- `detectFileType`: path patterns first, content patterns only if no path
pattern matched, else unknown. -/
def detectFileType (filePath content : String) : BackendFileType :=
  match firstRoleMatch FILE_TYPE_PATTERNS filePath.data with
  | some t => t
  | none =>
    match firstRoleMatch CONTENT_TYPE_PATTERNS content.data with
    | some t => t
    | none => .unknown

/-! ## Lexical extraction (BackendFileScanner) -/

def isLocalImport (importPath : String) : Bool :=
  (strL "./").isPrefixOf importPath.data || (strL "../").isPrefixOf importPath.data

/-- JS spread-of-Set deduplication: keeps the first occurrence of each
element, in order. -/
def dedupAux : List String → List String → List String
  | [], _ => []
  | x :: xs, seen => if seen.contains x then dedupAux xs seen else x :: dedupAux xs (x :: seen)

def dedup (l : List String) : List String := dedupAux l []

/-- `extractImports`: ES6 then CommonJS matches, local specifiers only,
deduplicated. -/
def extractImports (content : String) : List String :=
  let keepLocal := fun (m : Nat × Nat × Caps) =>
    let p := String.mk (capGetD m.snd.snd 1)
    if isLocalImport p then some p else none
  dedup ((reFindAll es6ImportRegex content.data).filterMap keepLocal ++
         (reFindAll cjsRequireRegex content.data).filterMap keepLocal)

/-- `extractExports`: named-export lists, direct declaration exports, and
the default marker, deduplicated. -/
def extractExports (content : String) : List String :=
  let named := (reFindAll namedExportRegex content.data).flatMap (fun m =>
    (splitOnCh ',' (capGetD m.snd.snd 1)).map (fun n => String.mk (trimL n)))
  let direct := (reFindAll directExportRegex content.data).map (fun m =>
    String.mk (capGetD m.snd.snd 1))
  let deflt := if reTest defaultExportRegex content.data then ["default"] else []
  dedup (named ++ direct ++ deflt)

/-- `extractEndpoints`: only for route and controller files; produces the
method-space-path strings of both calling conventions, `none` when the list
would be empty (the source returns `undefined` then). -/
def extractEndpoints (content : String) (fileType : BackendFileType) : Option (List String) :=
  if fileType != .route && fileType != .controller then none
  else
    let fmt := fun (m : Nat × Nat × Caps) =>
      String.mk (upperL (capGetD m.snd.snd 1)) ++ " " ++ String.mk (capGetD m.snd.snd 2)
    let endpoints := (reFindAll expressEndpointRegex content.data).map fmt ++
                     (reFindAll decoratorEndpointRegex content.data).map fmt
    if endpoints.isEmpty then none else some endpoints

/-- `generateFileId`: every slash, backslash and dot becomes an underscore. -/
def generateFileId (filePath : String) : String :=
  String.mk (filePath.data.map (fun c => if c == '/' || c == '\\' || c == '.' then '_' else c))

/-! ## Path helpers (node path semantics on project-relative paths) -/

def joinSegs : List String → String
  | [] => ""
  | [s] => s
  | s :: rest => s ++ "/" ++ joinSegs rest

def segsOf (p : String) : List String := (splitOnCh '/' p.data).map String.mk

/-- `path.basename` without a suffix argument. -/
def baseNameL (p : List Char) : List Char := (splitOnCh '/' p).getLastD p

/-- Index of the last dot of a name, if any. -/
def lastDotIdx (nm : List Char) : Option Nat :=
  (((nm.enum).filter (fun e => e.snd == '.')).map (fun e => e.fst)).getLast?

/-- `path.extname`: extension of the basename, empty when the only dot is
leading or there is none. -/
def extnameL (p : List Char) : List Char :=
  let nm := baseNameL p
  match lastDotIdx nm with
  | some i => if 0 < i then nm.drop i else []
  | none => []

/-- `path.basename(p, path.extname(p))`: file name with its extension
stripped. -/
def baseNameNoExt (p : List Char) : List Char :=
  let nm := baseNameL p
  nm.take (nm.length - (extnameL p).length)

/-- `path.dirname` on a relative path. -/
def dirnameOf (p : String) : String :=
  let ps := splitOnCh '/' p.data
  if ps.length ≤ 1 then "." else joinSegs ((ps.dropLast).map String.mk)

/-- Segment normalization: removes empty and same-directory segments and
applies parent-directory segments. -/
def normSegs : List String → List String → List String
  | acc, [] => acc.reverse
  | acc, s :: rest =>
    if s == "." || s == "" then normSegs acc rest
    else if s == ".." then
      match acc with
      | [] => normSegs [] rest
      | _ :: a => normSegs a rest
    else normSegs (s :: acc) rest

/-- `resolveImportPath` of the scanner (`path.dirname`, `path.resolve`,
`path.relative` against the project root). Modelled under the assumption
that the working directory is the project root, which makes
resolve-then-relative equal to normalizing the concatenation of the base
directory of the importer with the import specifier. -/
def resolveImportPath (importPath fromFile : String) : String :=
  joinSegs (normSegs [] (segsOf (dirnameOf fromFile ++ "/" ++ importPath)))

/-! ## Import-target probing (findFileByPath) -/

/-- Lookup in a JS `Map` built from a key-value list: the last binding of a
key wins. -/
def mapGet (m : List (String × BackendFile)) (k : String) : Option BackendFile :=
  (m.reverse.find? (fun e => e.fst == k)).map (fun e => e.snd)

/-- The file map `new Map(files.map(file => [file.path, file]))`. -/
def mkFileMap (files : List BackendFile) : List (String × BackendFile) :=
  files.map (fun f => (f.path, f))

/-- `findFileByPath`: exact path, then the path with each supported
extension, then the path joined with an index file name and each supported
extension, first hit wins. -/
def findFileByPath (targetPath : String) (fileMap : List (String × BackendFile)) :
    Option BackendFile :=
  match mapGet fileMap targetPath with
  | some f => some f
  | none =>
    match BACKEND_FILE_EXTENSIONS.findSome? (fun ext => mapGet fileMap (targetPath ++ ext)) with
    | some f => some f
    | none =>
      BACKEND_FILE_EXTENSIONS.findSome? (fun ext =>
        mapGet fileMap (targetPath ++ "/index" ++ ext))

/-! ## AdvancedCodeAnalyzer: functions and classes -/

/-- Loop body of `findFunctionEndLine`: scan forward, count brace depth (an
integer in the source, it can go negative), return the line of the brace
closing the first opened one; the index accumulator `i` is the absolute
offset of the scan head. -/
def feGo (content : List Char) (startLine : Nat) :
    List Char → Nat → Int → Bool → Nat
  | [], _, _, _ => startLine + 10
  | c :: rest, i, bc, inF =>
    if c == '\x7b' then feGo content startLine rest (i + 1) (bc + 1) true
    else if c == '\x7d' then
      if inF && bc - 1 == 0 then countNlTake content i + 1
      else feGo content startLine rest (i + 1) (bc - 1) inF
    else feGo content startLine rest (i + 1) bc inF

/-- `findFunctionEndLine`: brace-balance heuristic from the match offset,
with the start line plus ten as fallback when no balancing brace is found. -/
def findFunctionEndLine (content : List Char) (startIndex startLine : Nat) : Nat :=
  feGo content startLine (content.drop startIndex) startIndex 0 false

/-- `findClassEndLine` delegates to `findFunctionEndLine`. -/
def findClassEndLine (content : List Char) (startIndex startLine : Nat) : Nat :=
  findFunctionEndLine content startIndex startLine

/-- The `patterns` object of `extractFunctions`, in object-literal order,
keyed by the source's pattern names. -/
def functionPatterns : List (String × RE) :=
  [ ("jsFunction",
      rseq [ropt (rseq [litCS "export", wsPlus]), ropt (rseq [litCS "async", wsPlus]),
            litCS "function", wsPlus, .grp 1 (rplusC isWordCh), wsStar,
            litCS "(", .grp 2 (.starC notRParenCh), litCS ")"]),
    ("jsArrowFunction",
      rseq [ropt (rseq [litCS "export", wsPlus]), litCS "const", wsPlus,
            .grp 1 (rplusC isWordCh), wsStar, litCS "=", wsStar,
            ropt (rseq [litCS "async", wsPlus]),
            litCS "(", .grp 2 (.starC notRParenCh), litCS ")", wsStar, litCS "=>"]),
    ("jsMethod",
      rseq [ropt (rseq [litCS "async", wsPlus]), .grp 1 (rplusC isWordCh), wsStar,
            litCS "(", .grp 2 (.starC notRParenCh), litCS ")", wsStar, .cls braceColonCh]),
    ("expressRoute",
      rseq [litCS "app.", .grp 1 methodAltCS, wsStar, litCS "(", wsStar, quotedGrp 2]),
    ("routerRoute",
      rseq [litCS "router.", .grp 1 methodAltCS, wsStar, litCS "(", wsStar, quotedGrp 2]),
    ("pythonFunction",
      rseq [litCS "def", wsPlus, .grp 1 (rplusC isWordCh), wsStar,
            litCS "(", .grp 2 (.starC notRParenCh), litCS "):"]),
    ("pythonAsync",
      rseq [litCS "async", wsPlus, litCS "def", wsPlus, .grp 1 (rplusC isWordCh), wsStar,
            litCS "(", .grp 2 (.starC notRParenCh), litCS "):"]),
    ("phpFunction",
      rseq [litCS "function", wsPlus, .grp 1 (rplusC isWordCh), wsStar,
            litCS "(", .grp 2 (.starC notRParenCh), litCS ")"]),
    ("goFunction",
      rseq [litCS "func", wsPlus, .grp 1 (rplusC isWordCh), wsStar,
            litCS "(", .grp 2 (.starC notRParenCh), litCS ")"]) ]

/-- `determineFunctionType` (string `includes` checks are case sensitive). -/
def determineFunctionType (patternName : String) (fullMatch : List Char) : FunctionKind :=
  if containsSub patternName.data (strL "Route") || containsSub patternName.data (strL "express")
  then .endpoint
  else if containsSub fullMatch (strL "middleware") then .middleware
  else if containsSub fullMatch (strL "method") then .method
  else .fn

def parseHttpMethod (s : String) : Option HttpMethod :=
  if s == "GET" then some .GET
  else if s == "POST" then some .POST
  else if s == "PUT" then some .PUT
  else if s == "DELETE" then some .DELETE
  else if s == "PATCH" then some .PATCH
  else none

/-- `extractHttpMethod`: for the route patterns, group one upper-cased when
it is one of the five methods. -/
def extractHttpMethod (patternName : String) (caps : Caps) : Option HttpMethod :=
  if containsSub patternName.data (strL "Route") || containsSub patternName.data (strL "express")
  then parseHttpMethod (String.mk (upperL (capGetD caps 1)))
  else none

/-- `extractRoute`: group two for the route patterns. -/
def extractRoute (patternName : String) (caps : Caps) : Option String :=
  if containsSub patternName.data (strL "Route") || containsSub patternName.data (strL "express")
  then (capGet caps 2).map String.mk
  else none

/-- Parameter-list split: empty when the captured parameter text is empty
(JS falsy check), otherwise comma-split and trimmed. -/
def paramSplit (params : List Char) : List String :=
  if params.isEmpty then []
  else (splitOnCh ',' params).map (fun p => String.mk (trimL p))

/-- One `BackendFunction` from one match of one pattern (the body of the
`extractFunctions` while loop); the sequential id is filled by a later
pass. -/
def mkBackendFunction (content : List Char) (patternName : String)
    (m : Nat × Nat × Caps) : BackendFunction :=
  let idx := m.fst
  let fullMatch := (content.drop idx).take m.snd.fst
  let caps := m.snd.snd
  let startLine := lineOfIdx content idx
  { id := ""
    name := String.mk (capGetD caps 1)
    type := determineFunctionType patternName fullMatch
    startLine := startLine
    endLine := findFunctionEndLine content idx startLine
    parameters := paramSplit (capGetD caps 2)
    isAsync := containsSub fullMatch (strL "async")
    isExported := containsSub fullMatch (strL "export")
    httpMethod := extractHttpMethod patternName caps
    route := extractRoute patternName caps
    codeBlocks := []
    calls := [] }

/-- The source's `functionId++` counter: ids are assigned sequentially over
all matches in pattern-table order. -/
def assignFuncIds (filePath : String) : Nat → List BackendFunction → List BackendFunction
  | _, [] => []
  | n, f :: fs =>
    { f with id := filePath ++ "-func-" ++ Nat.repr n } :: assignFuncIds filePath (n + 1) fs

/-- `extractFunctions`. -/
def extractFunctions (content : String) (filePath : String) : List BackendFunction :=
  assignFuncIds filePath 0
    (functionPatterns.flatMap (fun e =>
      (reFindAll e.snd content.data).map (mkBackendFunction content.data e.fst)))

/-- The `patterns` object of `extractClasses`, in object-literal order. -/
def classPatterns : List (String × RE) :=
  [ ("jsClass",
      rseq [ropt (rseq [litCS "export", wsPlus]), litCS "class", wsPlus,
            .grp 1 (rplusC isWordCh),
            ropt (rseq [wsPlus, litCS "extends", wsPlus, .grp 2 (rplusC isWordCh)]),
            ropt (rseq [wsPlus, litCS "implements", wsPlus, .grp 3 (rplusC notLBraceCh)]),
            wsStar, lcs '\x7b']),
    ("interface",
      rseq [ropt (rseq [litCS "export", wsPlus]), litCS "interface", wsPlus,
            .grp 1 (rplusC isWordCh),
            ropt (rseq [wsPlus, litCS "extends", wsPlus, .grp 2 (rplusC notLBraceCh)]),
            wsStar, lcs '\x7b']),
    ("type",
      rseq [ropt (rseq [litCS "export", wsPlus]), litCS "type", wsPlus,
            .grp 1 (rplusC isWordCh), wsStar, litCS "="]) ]

/-- One `BackendClass` from one match of one class pattern. -/
def mkBackendClass (content : List Char) (patternName : String)
    (m : Nat × Nat × Caps) : BackendClass :=
  let idx := m.fst
  let fullMatch := (content.drop idx).take m.snd.fst
  let caps := m.snd.snd
  let startLine := lineOfIdx content idx
  { id := ""
    name := String.mk (capGetD caps 1)
    type := if patternName == "interface" then .interface
            else if patternName == "type" then .typeAlias
            else .classDecl
    startLine := startLine
    endLine := findClassEndLine content idx startLine
    methods := []
    properties := []
    extendsClause := (capGet caps 2).map String.mk
    implementsClause :=
      match capGet caps 3 with
      | some l => (splitOnCh ',' l).map (fun i => String.mk (trimL i))
      | none => []
    isExported := containsSub fullMatch (strL "export") }

/-- The source's `classId++` counter. -/
def assignClassIds (filePath : String) : Nat → List BackendClass → List BackendClass
  | _, [] => []
  | n, c :: cs =>
    { c with id := filePath ++ "-class-" ++ Nat.repr n } :: assignClassIds filePath (n + 1) cs

/-- `extractClasses`. -/
def extractClasses (content : String) (filePath : String) : List BackendClass :=
  assignClassIds filePath 0
    (classPatterns.flatMap (fun e =>
      (reFindAll e.snd content.data).map (mkBackendClass content.data e.fst)))

/-! ## AdvancedCodeAnalyzer: critical code blocks -/

/-- `determineImportance`: keyword presence in the lower-cased line first,
then the primary-datastore provider set, then the communication/storage
provider set, else low. -/
def determineImportance (provider : ThirdPartyProvider) (code : List Char) : Importance :=
  if ["stripe", "auth", "jwt", "passport"].any (fun kw => containsSub (lowerL code) kw.data)
  then .critical
  else if [ThirdPartyProvider.supabase, .mongodb, .postgresql, .mysql, .prisma,
           .drizzle].contains provider then .high
  else if [ThirdPartyProvider.slack, .discord, .sendgrid, .twilio, .aws,
           .gcp].contains provider then .medium
  else .low

def isDatabaseOperation (line : List Char) : Bool := dbPatterns.any (fun r => reTest r line)

def isAuthOperation (line : List Char) : Bool := authPatterns.any (fun r => reTest r line)

def isFileOperation (line : List Char) : Bool := filePatterns.any (fun r => reTest r line)

/-- The third-party block built for a matching provider on a line; the
sequential id is filled by a later pass. -/
def mkThirdPartyBlock (prov : ThirdPartyProvider) (lineNumber : Nat) (t : List Char) :
    CodeBlock :=
  { id := "", type := .third_party, provider := some prov,
    startLine := lineNumber, endLine := lineNumber, code := String.mk t,
    description := providerName prov ++ " integration",
    importance := determineImportance prov t }

/-- The provider loop of `extractCriticalCodeBlocks` on one trimmed line:
the unknown fallback row is skipped, each other provider contributes at
most one block (the inner pattern loop breaks after its first matching
pattern, which the any-test reproduces since the block does not depend on
which pattern matched); the outer provider loop is not broken, so several
providers can each contribute a block for the same line. -/
def thirdPartyLineBlocks (lineNumber : Nat) (t : List Char) : List CodeBlock :=
  THIRD_PARTY_PATTERNS.filterMap (fun e =>
    if e.fst == ThirdPartyProvider.unknown then none
    else if e.snd.any (fun r => reTest r t) then some (mkThirdPartyBlock e.fst lineNumber t)
    else none)

/-- The per-line body of `extractCriticalCodeBlocks` after trimming: skip
empty and comment lines, then provider blocks, then the three
operation-category blocks. -/
def analyzeTrimmedLine (lineNumber : Nat) (t : List Char) : List CodeBlock :=
  if t.isEmpty || (strL "//").isPrefixOf t || (strL "*").isPrefixOf t then []
  else
    thirdPartyLineBlocks lineNumber t ++
    (if isDatabaseOperation t then
      [{ id := "", type := .db_query, provider := none, startLine := lineNumber,
         endLine := lineNumber, code := String.mk t,
         description := "Database operation", importance := .high }] else []) ++
    (if isAuthOperation t then
      [{ id := "", type := .auth_check, provider := none, startLine := lineNumber,
         endLine := lineNumber, code := String.mk t,
         description := "Authentication check", importance := .critical }] else []) ++
    (if isFileOperation t then
      [{ id := "", type := .file_operation, provider := none, startLine := lineNumber,
         endLine := lineNumber, code := String.mk t,
         description := "File system operation", importance := .medium }] else [])

/-- The per-line body of `extractCriticalCodeBlocks`: the trimmed-line
analysis applied to the JS-trimmed line. -/
def analyzeLineBlocks (lineNumber : Nat) (line : List Char) : List CodeBlock :=
  analyzeTrimmedLine lineNumber (trimL line)

/-- The source's `blockId++` counter: ids are assigned sequentially over
all pushed blocks, in line order. -/
def assignBlockIds (filePath : String) : Nat → List CodeBlock → List CodeBlock
  | _, [] => []
  | n, b :: bs =>
    { b with id := filePath ++ "-block-" ++ Nat.repr n } :: assignBlockIds filePath (n + 1) bs

/-- `extractCriticalCodeBlocks`: the per-line analysis over all lines (line
numbers are one-based indices of the newline split). -/
def extractCriticalCodeBlocks (content : String) (filePath : String) : List CodeBlock :=
  assignBlockIds filePath 0
    ((splitLines content.data).enum.flatMap (fun e => analyzeLineBlocks (e.fst + 1) e.snd))

/-- `AdvancedCodeAnalyzer.analyzeFile`: files with falsy (empty) content
are returned unchanged, others get functions, classes and code blocks. -/
def analyzeFileAdvanced (file : BackendFile) : BackendFile :=
  if file.content == "" then file
  else
    { file with
      functions := extractFunctions file.content file.path
      classes := extractClasses file.content file.path
      codeBlocks := extractCriticalCodeBlocks file.content file.path
      isExpanded := false }

/-! ## AdvancedCodeAnalyzer: enhanced relationships -/

/-- The source's `rel-` id with the global counter value. -/
def setRelId (r : FileRelationship) (n : Nat) : FileRelationship :=
  { r with id := "rel-" ++ Nat.repr n }

/-- The source's `relId++` counter: ids are assigned sequentially over all
pushed relationships. -/
def assignRelIds : Nat → List FileRelationship → List FileRelationship
  | _, [] => []
  | n, r :: rs => setRelId r n :: assignRelIds (n + 1) rs

/-- File-level import relationships of one file: an import produces an edge
to the first file whose path contains the import specifier as a substring
or whose name equals it; otherwise it is dropped. -/
def importRelsOf (files : List BackendFile) (f : BackendFile) : List FileRelationship :=
  f.imports.filterMap (fun importPath =>
    (files.find? (fun t =>
        containsSub t.path.data importPath.data || t.name == importPath)).map
      (fun t =>
        { id := "", sourceId := f.id, targetId := t.id, type := .importRel,
          label := some "imports", sourceFunction := none, targetFunction := none }))

/-- Function-level relationships of one file: external calls whose target
path names a file of the list. -/
def funcCallRelsOf (files : List BackendFile) (f : BackendFile) : List FileRelationship :=
  f.functions.flatMap (fun fn =>
    fn.calls.filterMap (fun call =>
      match call.filePath with
      | none => none
      | some fp =>
        if call.isExternal then
          (files.find? (fun t => t.path == fp)).map (fun t =>
            { id := "", sourceId := f.id, targetId := t.id, type := .function_call,
              label := some ("calls " ++ call.functionName),
              sourceFunction := some fn.name, targetFunction := some call.functionName })
        else none))

/-- Virtual api-call relationships of one file: one edge per third-party
block with a provider, to the external provider pseudo-node. -/
def apiCallRelsOf (f : BackendFile) : List FileRelationship :=
  f.codeBlocks.filterMap (fun block =>
    if block.type == CodeBlockType.third_party then
      block.provider.map (fun prov =>
        { id := "", sourceId := f.id, targetId := "external-" ++ providerName prov,
          type := .api_call, label := some ("uses " ++ providerName prov),
          sourceFunction := none, targetFunction := none })
    else none)

/-- `generateEnhancedRelationships`. -/
def generateEnhancedRelationships (files : List BackendFile) : List FileRelationship :=
  assignRelIds 0
    (files.flatMap (fun f => importRelsOf files f ++ funcCallRelsOf files f ++ apiCallRelsOf f))

/-! ## Layout (applyAutoLayout) -/

/-- Ceiling of the square root: the smallest `c` with `n ≤ c * c`. -/
def ceilSqrt (n : Nat) : Nat := ((List.range (n + 1)).find? (fun c => n ≤ c * c)).getD n

/-- `applyAutoLayout`: grid with ceil-sqrt columns and fixed node
width/height/spacing constants (column times 270, row times 170). -/
def applyAutoLayout (files : List BackendFile) : List BackendFile :=
  let cols := ceilSqrt files.length
  files.enum.map (fun e =>
    { e.snd with position := some ((e.fst % cols) * 270, (e.fst / cols) * 170) })

/-! ## Filesystem model and the scan orchestration (BackendFileScanner)

The filesystem is a directory tree; `none` in a directory's entry list
models a directory whose readdir fails, `none` in a file's content models a
file whose read fails. The scanner carries project-relative paths (the
source carries absolute paths and strips the project prefix with
`path.relative`; the prefix is constant, so the two coincide). -/

inductive FSEntry where
  | file (name : String) (content : Option String) : FSEntry
  | dir (name : String) (entries : Option (List FSEntry)) : FSEntry

def fsName : FSEntry → String
  | .file n _ => n
  | .dir n _ => n

/-! Size of a tree, used as a recursion-depth bound for the walk. -/

mutual

def fsSize : FSEntry → Nat
  | .file _ _ => 1
  | .dir _ none => 1
  | .dir _ (some es) => 1 + fsSizeList es

def fsSizeList : List FSEntry → Nat
  | [] => 0
  | e :: es => fsSize e + fsSizeList es

end

/-- Lookup of a path (as segments) from an entry; descending into an
unreadable directory or through a file fails. -/
def lookupPath : FSEntry → List String → Option FSEntry
  | e, [] => some e
  | .file _ _, _ :: _ => none
  | .dir _ none, _ :: _ => none
  | .dir _ (some es), seg :: rest =>
    match es.find? (fun c => fsName c == seg) with
    | some c => lookupPath c rest
    | none => none

/-- The excluded directory names of `scanDirectory`. -/
def excludedDirs : List String := ["node_modules", ".git", "dist", "build", ".next"]

/-- Join of a relative prefix and a name (empty prefix for the root). -/
def joinRel (p n : String) : String := if p == "" then n else p ++ "/" ++ n

/-- The entry loop of `scanDirectory`: subdirectories outside the exclude
set are recursed into (their own readdir failure yields nothing), files
with a supported extension are collected. The fuel argument serves only
structural termination over the nested tree; callers pass a size bound
that exceeds any possible recursion depth, so the zero case is never
reached on the trees walked. -/
def scanEntriesF : Nat → List FSEntry → String → List String
  | 0, _, _ => []
  | fuel + 1, entries, p =>
    entries.flatMap (fun e =>
      match e with
      | .dir n sub =>
        if excludedDirs.contains n then []
        else
          match sub with
          | none => []
          | some es => scanEntriesF fuel es (joinRel p n)
      | .file n _ =>
        if BACKEND_FILE_EXTENSIONS.contains (String.mk (extnameL n.data)) then [joinRel p n]
        else [])

/-- `scanDirectory` on an entry at relative path `p`: a failed readdir (or
a non-directory) is caught and yields the empty list. -/
def scanDirectory : FSEntry → String → List String
  | .dir _ (some es), p => scanEntriesF (fsSizeList es + 1) es p
  | .dir _ none, _ => []
  | .file _ _, _ => []

/-- Root lookup with a possibly missing project root. -/
def lookupRoot (fsRoot : Option FSEntry) (segs : List String) : Option FSEntry :=
  match fsRoot with
  | none => none
  | some r => lookupPath r segs

/-- `pathExists` (`fs.promises.access`, every failure caught as false). -/
def pathExists (fsRoot : Option FSEntry) (p : String) : Bool :=
  (lookupRoot fsRoot (if p == "." then [] else segsOf p)).isSome

/-- The `scanDirs` list of `findBackendFiles` (the live, expanded variant),
in source order. -/
def scanDirs : List String :=
  [ "api", "src/api", "app/api",
    "routes", "src/routes", "app/routes",
    "controllers", "src/controllers", "app/controllers",
    "models", "src/models", "app/models",
    "services", "src/services", "app/services",
    "middleware", "src/middleware", "app/middleware",
    "config", "src/config", "app/config",
    "server", "src/server",
    "backend", "src/backend",
    "src", "app", "pages", "components",
    "src/components", "app/components",
    "src/pages", "app/pages",
    "src/lib", "lib", "utils", "src/utils",
    "." ]

/-- The root-level entry file names of `findBackendFiles`. -/
def rootFiles : List String :=
  ["server.js", "server.ts", "app.js", "app.ts", "index.js", "index.ts"]

/-- `findBackendFiles`: every existing scan directory is recursively
scanned (the same file can be collected several times when it is reachable
from more than one scan directory, in particular via the root scan), then
the existing root-level entry files are appended. -/
def findBackendFiles (fsRoot : Option FSEntry) : List String :=
  scanDirs.flatMap (fun d =>
    let segs := if d == "." then [] else segsOf d
    match lookupRoot fsRoot segs with
    | some e => scanDirectory e (if d == "." then "" else d)
    | none => []) ++
  rootFiles.filter (fun f => pathExists fsRoot f)

/-- The pure part of `BackendFileScanner.analyzeFile` after a successful
read, composed with the advanced analysis (both run inside the same try
block). -/
def analyzeFilePure (relativePath content : String) : BackendFile :=
  let fileType := detectFileType relativePath content
  let imports := extractImports content
  let eps := ((extractEndpoints content fileType).getD []).enum.map (fun e =>
    { id := relativePath ++ "-endpoint-" ++ Nat.repr e.fst
      method := HttpMethod.GET
      path := e.snd
      functionName := "unknown"
      line := 0 : ApiEndpoint })
  analyzeFileAdvanced
    { id := generateFileId relativePath
      name := String.mk (baseNameNoExt relativePath.data)
      path := relativePath
      relativePath := relativePath
      type := fileType
      size := content.length
      content := content
      imports := imports
      exports := extractExports content
      endpoints := eps
      dependencies := imports
      functions := []
      classes := []
      codeBlocks := []
      isExpanded := false
      position := none }

/-- `analyzeFile` with its filesystem read: any failure inside the try
block (missing file, unreadable file, a directory) yields `none`, which the
orchestrator filters out. -/
def analyzeFile (fsRoot : Option FSEntry) (relativePath : String) : Option BackendFile :=
  match lookupRoot fsRoot (segsOf relativePath) with
  | some (.file _ (some content)) => some (analyzeFilePure relativePath content)
  | _ => none

/-- `scanProject`: discovery, per-file analysis with failed files dropped,
enhanced relationships over the complete list, auto-layout, snapshot. -/
def scanProject (fsRoot : Option FSEntry) (projectPath : String) : BackendFileAnalysis :=
  let validFiles := (findBackendFiles fsRoot).filterMap (fun p => analyzeFile fsRoot p)
  { files := applyAutoLayout validFiles
    relationships := generateEnhancedRelationships validFiles
    projectPath := projectPath
    lastScanned := () }

/-- The possible error surface of `scanProject`. -/
inductive ScanError where
  | rootTraversal : ScanError
deriving Repr, DecidableEq, BEq

/-- `scanProject` seen through its try/catch: the catch rethrows whatever
escapes the body, but every filesystem operation inside the body catches
its own errors (`pathExists` returns false, `scanDirectory` returns the
empty list, `analyzeFile` returns null), so no execution reaches the
rethrow and the result is always a snapshot. -/
def scanProjectE (fsRoot : Option FSEntry) (projectPath : String) :
    Except ScanError BackendFileAnalysis :=
  .ok (scanProject fsRoot projectPath)

/-! ## Control-flow skeleton of analyzeFile

`analyzeFile` wraps the file read, the lexical extraction and the advanced
analysis in one try block whose single catch returns null, after which the
orchestrator drops the file. The read result and the extraction stage are
abstracted here as fallible values to express which failure the catch maps
to which outcome: the Lean embeddings of the extraction functions are
total, but the JS runtime can throw inside them, and the catch does not
distinguish where an exception arose. -/
def analyzeFileTryCatch (readResult : Except String String)
    (extract : String → Except String BackendFile) : Option BackendFile :=
  match readResult with
  | .error _ => none
  | .ok content =>
    match extract content with
    | .error _ => none
    | .ok f => some f

/-! ## Specification-side definitions used for refinement statements -/

/-- Modelled from the amended specification words for the import edges the
scan emits: for each file in order and each of its recorded imports in
order, one edge to the first file of the list whose path contains the raw
specifier as a substring or whose name equals it, given as a
source-id/target-id pair; an import with no such file yields nothing. -/
def importEdgesSpec (files : List BackendFile) : List (String × String) :=
  files.flatMap (fun f =>
    f.imports.filterMap (fun importPath =>
      (files.find? (fun t =>
          containsSub t.path.data importPath.data || t.name == importPath)).map
        (fun t => (f.id, t.id))))

/-- Modelled from the amended specification words for importance tiers: a
keyword of stripe, auth, jwt, passport present in the lower-cased line
yields critical; otherwise the primary-datastore providers yield high, the
communication/storage providers yield medium, and every other provider
yields low. -/
def importanceSpec (provider : ThirdPartyProvider) (code : List Char) : Importance :=
  if ["stripe", "auth", "jwt", "passport"].any (fun kw => containsSub (lowerL code) kw.data)
  then .critical
  else if [ThirdPartyProvider.supabase, .mongodb, .postgresql, .mysql, .prisma,
           .drizzle].contains provider then .high
  else if [ThirdPartyProvider.slack, .discord, .sendgrid, .twilio, .aws,
           .gcp].contains provider then .medium
  else .low

/-- All provider values. -/
def allProviders : List ThirdPartyProvider :=
  [.supabase, .openai, .anthropic, .slack, .discord,
   .google, .github, .stripe, .twilio, .sendgrid,
   .aws, .azure, .gcp, .firebase, .mongodb,
   .postgresql, .mysql, .redis, .prisma, .drizzle,
   .express, .fastify, .koa, .nestjs, .unknown]

/-- The fixed virtual external-provider identifier namespace. -/
def virtualProviderIds : List String :=
  allProviders.map (fun prov => "external-" ++ providerName prov)

/-! ## Concrete fixtures used by the scenario theorems -/

/-- Content of `routes/users.ts` in the Scenario A tree: a relative import
of the database service and a router GET registration for the users path. -/
def routeContent : String :=
  "import \x7b db \x7d from \"../services/db\";\nrouter.get(\"/users\", handler);\n"

/-- Content of `services/db.ts` in the Scenario A tree: it exports `db`. -/
def dbContent : String := "export const db = \x7b users: [] \x7d;\n"

/-- The Scenario A project tree. -/
def scenarioAFS : FSEntry :=
  .dir "proj" (some
    [ .dir "routes" (some [.file "users.ts" (some routeContent)]),
      .dir "services" (some [.file "db.ts" (some dbContent)]) ])

/-- A tree with one readable and one unreadable file at the root. -/
def fsC3 : FSEntry :=
  .dir "proj" (some [.file "good.ts" (some "x"), .file "bad.ts" none])

/-- A tree containing two distinct files whose relative paths collide under
the file-id function. -/
def fsC10 : FSEntry :=
  .dir "proj" (some
    [ .dir "a" (some [.file "b.ts" (some "x")]),
      .file "a.b.ts" (some "y") ])

/-- A file carrying one third-party code block, used to instantiate the
endpoint-closure theorem. -/
def c9File : BackendFile :=
  { id := "f1", name := "a", path := "a.ts", relativePath := "a.ts",
    type := .unknown, size := 1, content := "x", imports := [], exports := [],
    endpoints := [], dependencies := [], functions := [], classes := [],
    codeBlocks :=
      [{ id := "b0", type := .third_party, provider := some .stripe,
         startLine := 1, endLine := 1, code := "stripe.x",
         description := "stripe integration", importance := .critical }],
    isExpanded := false, position := none }

/-- The api-call relationship the analyzer emits for `c9File`. -/
def c9Rel : FileRelationship :=
  { id := "rel-0", sourceId := "f1", targetId := "external-stripe",
    type := .api_call, label := some "uses stripe",
    sourceFunction := none, targetFunction := none }

/-- The third-party block extracted from a line that names stripe. -/
def c5Block : CodeBlock :=
  { id := "f.ts-block-0", type := .third_party, provider := some .stripe,
    startLine := 1, endLine := 1, code := "stripe.charges",
    description := "stripe integration", importance := .critical }

/-- The function fact the extractor produces first on a content consisting
of a single parameterless method-shaped declaration. -/
def c8Func : BackendFunction :=
  { id := "p.py-func-0", name := "g", type := .fn, startLine := 1, endLine := 11,
    parameters := [], isAsync := false, isExported := false,
    httpMethod := none, route := none, codeBlocks := [], calls := [] }

/-! ## Sanity checks of the matcher -/

example : reTest (litCI "abc") (strL "xxABCx") = true := by decide

example : reTest (litCI "abc") (strL "xxABx") = false := by decide

example : reTest (.seq (litCI "a") (.seq dotStar (litCI "c"))) (strL "a--c") = true := by decide

example : reTest (.seq (litCI "ac") .eos) (strL "xac") = true := by decide

example : reTest (.seq (litCI "ac") .eos) (strL "acx") = false := by decide

example :
    reSearch (.seq (litCS "b ") (.grp 1 (rplusC isWordCh))) (strL "a b cd") 0 =
      some (2, 4, [(1, strL "cd")]) := by decide

example :
    (reFindAll (.grp 1 (.seq (litCS "a") (ropt (litCS "b")))) (strL "ab a")).map
      (fun m => (m.fst, m.snd.fst)) = [(0, 2), (3, 1)] := by decide

example : extractImports routeContent = ["../services/db"] := by decide

example : extractExports dbContent = ["db"] := by decide

/-! ## Claim theorems -/

set_option maxRecDepth 40000

/-- C1, counterexample. On the Scenario A tree the scan does not yield two
files with roles route and service: it yields four files (each of the two
files is discovered twice, once through its own scan directory and once
through the root scan directory), classified controller (by content, since
the relative path `routes/users.ts` has no leading slash and matches no
path pattern) and unknown (the service content patterns do not match the
db module body). -/
theorem c1_scenarioA_counterexample :
    (scanProject (some scenarioAFS) "/proj").files.map (fun f => f.type) =
      [BackendFileType.controller, .unknown, .controller, .unknown] := by decide

/-- C1, amended. On the Scenario A tree the scan yields four files, the
route file and the service file each twice, with roles controller and
unknown; zero import edges (the substring-based resolution of the live
pipeline cannot match the specifier `../services/db` against any path);
and one endpoint fact per route-file copy whose method is the hardcoded
GET and whose path is the whole method-and-path string `GET /users`. -/
theorem c1_scenarioA_amended :
    ((scanProject (some scenarioAFS) "/proj").files.map (fun f => f.path) =
      ["routes/users.ts", "services/db.ts", "routes/users.ts", "services/db.ts"]) ∧
    ((scanProject (some scenarioAFS) "/proj").files.map (fun f => f.type) =
      [BackendFileType.controller, .unknown, .controller, .unknown]) ∧
    (((scanProject (some scenarioAFS) "/proj").relationships.filter
        (fun r => r.type == RelationshipType.importRel)).length = 0) ∧
    ((scanProject (some scenarioAFS) "/proj").files.map
        (fun f => f.endpoints.map (fun e => (e.method, e.path))) =
      [[(HttpMethod.GET, "GET /users")], [], [(HttpMethod.GET, "GET /users")], []]) :=
  ⟨by decide, by decide, by decide, by decide⟩

/-- C2, counterexample. For a root path that does not exist the scan does
not fail: it returns a full, empty snapshot, because `pathExists` catches
the access failure of every scan directory and of every root entry file. -/
theorem c2_missing_root_counterexample :
    scanProjectE none "/proj" =
      .ok { files := [], relationships := [], projectPath := "/proj", lastScanned := () } := rfl

/-- C2, amended. The scan never fails: for every filesystem and root it
returns a snapshot, and an existing root whose directory listing is
unreadable yields the empty file list rather than an error; no error of any
kind crosses the orchestrator boundary. -/
theorem c2_scan_total_amended :
    (∀ (fsRoot : Option FSEntry) (projectPath : String),
      ∃ snap, scanProjectE fsRoot projectPath = .ok snap) ∧
    ((scanProject (some (.dir "proj" none)) "/p").files = []) :=
  ⟨fun fsRoot projectPath => ⟨scanProject fsRoot projectPath, rfl⟩, by decide⟩

/-- C3, counterexample. A per-file extraction failure does not lead to the
file being included with empty extracted facts: the single catch of
`analyzeFile` turns any failure inside the try block, extraction included,
into null, and the file is excluded from the snapshot. -/
theorem c3_extraction_failure_counterexample :
    analyzeFileTryCatch (.ok "content") (fun _ => .error "analysis failed") = none := rfl

/-- C3, amended. Any per-file failure, read or extraction, results in the
file being excluded from the snapshot; the whole scan still succeeds, and
files outside the failing one are kept, as the concrete tree with one
unreadable file shows. -/
theorem c3_per_file_failures_amended :
    (∀ (e : String) (extract : String → Except String BackendFile),
      analyzeFileTryCatch (.error e) extract = none) ∧
    (∀ (c e : String), analyzeFileTryCatch (.ok c) (fun _ => .error e) = none) ∧
    ((scanProject (some fsC3) "/p").files.map (fun f => f.path) = ["good.ts"]) ∧
    (∃ snap, scanProjectE (some fsC3) "/p" = .ok snap) :=
  ⟨fun _ _ => rfl, fun _ _ => rfl, by decide, ⟨scanProject (some fsC3) "/p", rfl⟩⟩

/-- C10. The file-id function is not injective: the distinct relative paths
`a/b.ts` and `a.b.ts` share the id `a_b_ts`, and a single snapshot of a
tree containing both files holds two distinct files with one id, so
relationship endpoints identify files only up to this collision. -/
theorem c10_file_id_collision :
    (generateFileId "a/b.ts" = generateFileId "a.b.ts") ∧
    ("a/b.ts" ≠ "a.b.ts") ∧
    ((scanProject (some fsC10) "/p").files.map (fun f => (f.id, f.path)) =
      [("a_b_ts", "a/b.ts"), ("a_b_ts", "a.b.ts")]) :=
  ⟨by decide, by decide, by decide⟩

/-! ## Helper lemmas for the code-block claims -/

/-- Kept elements of a filtered filterMap are bounded by the source entries
satisfying a transferred predicate. -/
theorem length_filter_filterMap_le {A B : Type} (l : List A) (g : A → Option B)
    (p : B → Bool) (q : A → Bool)
    (h : ∀ a b, g a = some b → p b = true → q a = true) :
    ((l.filterMap g).filter p).length ≤ (l.filter q).length := by
  induction l with
  | nil => simp
  | cons a as ih =>
    cases hg : g a with
    | none =>
      rw [List.filterMap_cons_none hg, List.filter_cons]
      split
      · exact Nat.le_succ_of_le ih
      · exact ih
    | some b =>
      rw [List.filterMap_cons_some hg, List.filter_cons, List.filter_cons]
      cases hp : p b with
      | false =>
        simp only [hp, Bool.false_eq_true, if_false]
        split
        · exact Nat.le_succ_of_le ih
        · exact ih
      | true =>
        have hq : q a = true := h a b hg hp
        simp only [hp, hq, if_true, List.length_cons]
        exact Nat.succ_le_succ ih

/-- Every provider appears in at most one row of the provider table. -/
theorem providerRow_count_le_one (prov : ThirdPartyProvider) :
    (THIRD_PARTY_PATTERNS.filter (fun e => e.fst == prov)).length ≤ 1 := by
  cases prov <;> decide

/-- A conditional singleton whose element has no provider contributes
nothing to a provider filter. -/
theorem filter_provider_ite_nil (prov : ThirdPartyProvider) (c : Bool) (b : CodeBlock)
    (hb : b.provider = none) :
    ((if c then [b] else []).filter (fun x => x.provider == some prov)) = [] := by
  have hfalse : (b.provider == some prov) = false := by rw [hb]; rfl
  cases c with
  | true => simp [List.filter, hfalse]
  | false => rfl

/-- The provider loop emits at most one block per provider for a line. -/
theorem thirdPartyLineBlocks_count_le_one (n : Nat) (t : List Char)
    (prov : ThirdPartyProvider) :
    ((thirdPartyLineBlocks n t).filter (fun b => b.provider == some prov)).length ≤ 1 := by
  unfold thirdPartyLineBlocks
  refine Nat.le_trans
    (length_filter_filterMap_le THIRD_PARTY_PATTERNS _ _ (fun e => e.fst == prov) ?_)
    (providerRow_count_le_one prov)
  intro e b hg hp
  cases hu : (e.fst == ThirdPartyProvider.unknown) with
  | true => rw [hu] at hg; simp at hg
  | false =>
    rw [hu] at hg
    simp only [Bool.false_eq_true, if_false] at hg
    cases hm : e.snd.any (fun r => reTest r t) with
    | false => rw [hm] at hg; simp at hg
    | true =>
      rw [hm] at hg
      simp only [if_true, Option.some.injEq] at hg
      have : b.provider = some e.fst := by rw [← hg]; rfl
      rw [this] at hp
      simpa using hp

/-- C4, amended. For every line and every provider, the per-line analysis
produces at most one third-party block attributed to that provider: the
inner pattern loop breaks after the first matching pattern of a provider,
but the outer provider loop continues, so a line can carry one block per
matching provider rather than at most one block in total. -/
theorem c4_per_provider_at_most_one_amended (lineNumber : Nat) (line : List Char)
    (prov : ThirdPartyProvider) :
    ((analyzeLineBlocks lineNumber line).filter
      (fun b => b.provider == some prov)).length ≤ 1 := by
  unfold analyzeLineBlocks analyzeTrimmedLine
  split
  · simp
  · rw [List.filter_append, List.filter_append, List.filter_append]
    rw [filter_provider_ite_nil prov _ _ rfl, filter_provider_ite_nil prov _ _ rfl,
        filter_provider_ite_nil prov _ _ rfl]
    simpa using thirdPartyLineBlocks_count_le_one lineNumber (trimL line) prov

/-- C4, counterexample. A single line matching the pattern lists of several
providers yields several third-party facts, one per matching provider, not
at most one: a select-from chain matches the supabase, postgresql and
drizzle rows and produces three third-party blocks. -/
theorem c4_multi_provider_counterexample :
    ((extractCriticalCodeBlocks "db.select().from(t)" "f.ts").filter
      (fun b => b.type == CodeBlockType.third_party)).map (fun b => b.provider) =
      [some ThirdPartyProvider.supabase, some .postgresql, some .drizzle] := by decide

/-- The id pass of the block extractor only rewrites ids. -/
theorem mem_assignBlockIds (fp : String) :
    ∀ (n : Nat) (bs : List CodeBlock) (b : CodeBlock), b ∈ assignBlockIds fp n bs →
      ∃ b0 ∈ bs, ∃ m, b = { b0 with id := fp ++ "-block-" ++ Nat.repr m } := by
  intro n bs
  induction bs generalizing n with
  | nil => intro b hb; simp [assignBlockIds] at hb
  | cons x xs ih =>
    intro b hb
    rw [assignBlockIds] at hb
    rcases List.mem_cons.1 hb with h | h
    · exact ⟨x, List.mem_cons_self x xs, n, h⟩
    · obtain ⟨b0, hb0, m, hm⟩ := ih (n + 1) b h
      exact ⟨b0, List.mem_cons_of_mem x hb0, m, hm⟩

/-- A block of the per-line analysis carrying a provider is a third-party
block of the provider loop, so its importance is the determined importance
of that provider on the trimmed line and its code is the trimmed line. -/
theorem analyzeTrimmedLine_provider (n : Nat) (t : List Char) (b : CodeBlock)
    (prov : ThirdPartyProvider) (hb : b ∈ analyzeTrimmedLine n t)
    (hp : b.provider = some prov) :
    b.importance = determineImportance prov t ∧ b.code = String.mk t := by
  unfold analyzeTrimmedLine at hb
  split at hb
  · simp at hb
  · rcases List.mem_append.1 hb with h | hI3
    · rcases List.mem_append.1 h with h2 | hI2
      · rcases List.mem_append.1 h2 with hTP | hI1
        · obtain ⟨e, he, hg⟩ := List.mem_filterMap.1 hTP
          cases hu : (e.fst == ThirdPartyProvider.unknown) with
          | true => rw [hu] at hg; simp at hg
          | false =>
            rw [hu] at hg
            simp only [Bool.false_eq_true, if_false] at hg
            cases hm : e.snd.any (fun r => reTest r t) with
            | false => rw [hm] at hg; simp at hg
            | true =>
              rw [hm] at hg
              simp only [if_true, Option.some.injEq] at hg
              subst hg
              have hpe : e.fst = prov := by
                have hh : (mkThirdPartyBlock e.fst n t).provider = some e.fst := rfl
                rw [hh] at hp
                exact Option.some.inj hp
              constructor
              · show determineImportance e.fst t = determineImportance prov t
                rw [hpe]
              · rfl
        · split at hI1
          · rw [List.mem_singleton] at hI1
            subst hI1
            exact Option.noConfusion hp
          · simp at hI1
      · split at hI2
        · rw [List.mem_singleton] at hI2
          subst hI2
          exact Option.noConfusion hp
        · simp at hI2
    · split at hI3
      · rw [List.mem_singleton] at hI3
        subst hI3
        exact Option.noConfusion hp
      · simp at hI3

/-- C5, amended. Every third-party code-block fact the extractor produces
carries the importance of the fixed precedence applied to its own line
text: critical exactly when one of the keywords stripe, auth, jwt or
passport occurs in the line (case-insensitively); otherwise high for the
primary-datastore providers, medium for the communication/storage
providers, low for all others. A payment-provider intent-creation call
therefore yields critical only when such a keyword also appears in the
line. -/
theorem c5_importance_tiers_amended (content path : String) (b : CodeBlock)
    (prov : ThirdPartyProvider) (hb : b ∈ extractCriticalCodeBlocks content path)
    (hp : b.provider = some prov) :
    b.importance = importanceSpec prov b.code.data := by
  unfold extractCriticalCodeBlocks at hb
  obtain ⟨b0, hb0, m, rfl⟩ := mem_assignBlockIds path 0 _ b hb
  obtain ⟨e, he, hline⟩ := List.mem_flatMap.1 hb0
  obtain ⟨him, hcode⟩ :=
    analyzeTrimmedLine_provider (e.fst + 1) (trimL e.snd) b0 prov hline hp
  show b0.importance = importanceSpec prov b0.code.data
  rw [him, hcode]
  rfl

/-- C5, counterexample. A line invoking a payment-provider intent-creation
call without naming the provider keyword yields a stripe-attributed
third-party fact of importance low, not critical: the importance keyword
check looks for the literal keywords in the line text and the pattern that
attributed the provider plays no role in it. -/
theorem c5_payment_intent_low_counterexample :
    ((extractCriticalCodeBlocks "client.paymentIntents.create(x)" "f.ts").filter
      (fun b => b.provider == some ThirdPartyProvider.stripe)).map
      (fun b => b.importance) = [Importance.low] := by decide

/-! ## Relationship-shape lemmas -/

/-- Import relationships carry the import type. -/
theorem importRelsOf_type (files : List BackendFile) (f : BackendFile) :
    ∀ r ∈ importRelsOf files f, r.type = RelationshipType.importRel := by
  intro r hr
  obtain ⟨i, hi, hg⟩ := List.mem_filterMap.1 hr
  obtain ⟨t, hfind, hmk⟩ := Option.map_eq_some'.1 hg
  rw [← hmk]

/-- Function-call relationships carry the function-call type. -/
theorem funcCallRelsOf_type (files : List BackendFile) (f : BackendFile) :
    ∀ r ∈ funcCallRelsOf files f, r.type = RelationshipType.function_call := by
  intro r hr
  obtain ⟨fn, hfn, hc⟩ := List.mem_flatMap.1 hr
  obtain ⟨call, hcall, hg⟩ := List.mem_filterMap.1 hc
  cases hfp : call.filePath with
  | none => simp [hfp] at hg
  | some fp =>
    simp only [hfp] at hg
    cases hext : call.isExternal with
    | false => simp [hext] at hg
    | true =>
      simp [hext] at hg
      obtain ⟨t, hfind, hmk⟩ := hg
      rw [← hmk]

/-- Api-call relationships carry the api-call type. -/
theorem apiCallRelsOf_type (f : BackendFile) :
    ∀ r ∈ apiCallRelsOf f, r.type = RelationshipType.api_call := by
  intro r hr
  obtain ⟨block, hblock, hg⟩ := List.mem_filterMap.1 hr
  split at hg
  · obtain ⟨prov, hprov, hmk⟩ := Option.map_eq_some'.1 hg
    rw [← hmk]
  · simp at hg

/-- The relationship id pass changes neither the import-type filter nor the
endpoint pair of any relationship. -/
theorem assignRelIds_filter_map :
    ∀ (n : Nat) (rs : List FileRelationship),
      ((assignRelIds n rs).filter (fun r => r.type == RelationshipType.importRel)).map
        (fun r => (r.sourceId, r.targetId)) =
      (rs.filter (fun r => r.type == RelationshipType.importRel)).map
        (fun r => (r.sourceId, r.targetId)) := by
  intro n rs
  induction rs generalizing n with
  | nil => rfl
  | cons x xs ih =>
    rw [assignRelIds, List.filter_cons, List.filter_cons]
    have hcond : ((setRelId x n).type == RelationshipType.importRel) =
        (x.type == RelationshipType.importRel) := rfl
    rw [hcond]
    split
    · rw [List.map_cons, List.map_cons, ih (n + 1)]
      rfl
    · exact ih (n + 1)

/-- The import-filtered endpoint pairs of one file's relationship group are
exactly the resolved pairs of its imports. -/
theorem filter_map_importRels (files : List BackendFile) (f : BackendFile) :
    ((importRelsOf files f ++ funcCallRelsOf files f ++ apiCallRelsOf f).filter
      (fun r => r.type == RelationshipType.importRel)).map
      (fun r => (r.sourceId, r.targetId)) =
    f.imports.filterMap (fun importPath =>
      (files.find? (fun t =>
          containsSub t.path.data importPath.data || t.name == importPath)).map
        (fun t => (f.id, t.id))) := by
  rw [List.filter_append, List.filter_append]
  have h2 : (funcCallRelsOf files f).filter
      (fun r => r.type == RelationshipType.importRel) = [] := by
    rw [List.filter_eq_nil_iff]
    intro r hr
    rw [funcCallRelsOf_type files f r hr]
    exact fun h => Bool.noConfusion h
  have h3 : (apiCallRelsOf f).filter (fun r => r.type == RelationshipType.importRel) = [] := by
    rw [List.filter_eq_nil_iff]
    intro r hr
    rw [apiCallRelsOf_type f r hr]
    exact fun h => Bool.noConfusion h
  have h1 : (importRelsOf files f).filter
      (fun r => r.type == RelationshipType.importRel) = importRelsOf files f := by
    rw [List.filter_eq_self]
    intro r hr
    rw [importRelsOf_type files f r hr]
    rfl
  rw [h1, h2, h3, List.append_nil, List.append_nil]
  unfold importRelsOf
  rw [List.map_filterMap]
  apply List.filterMap_congr
  intro importPath _
  cases files.find? (fun t =>
      containsSub t.path.data importPath.data || t.name == importPath) <;> rfl

/-- C6, amended. The scan pipeline does not use the extension/index probing
order to produce import edges: the import edges of the enhanced
relationships are exactly the substring/name first-match resolution of the
recorded imports — one edge per import whose specifier is contained in some
file path or equals some file name, the first such file winning, and a
silent drop otherwise. The probing order lives in `findFileByPath`, which
the live pipeline never calls. -/
theorem c6_import_edges_amended (files : List BackendFile) :
    ((generateEnhancedRelationships files).filter
      (fun r => r.type == RelationshipType.importRel)).map
      (fun r => (r.sourceId, r.targetId)) = importEdgesSpec files := by
  unfold generateEnhancedRelationships importEdgesSpec
  rw [assignRelIds_filter_map]
  suffices h : ∀ l : List BackendFile,
      ((l.flatMap (fun f =>
          importRelsOf files f ++ funcCallRelsOf files f ++ apiCallRelsOf f)).filter
        (fun r => r.type == RelationshipType.importRel)).map
        (fun r => (r.sourceId, r.targetId)) =
      l.flatMap (fun f =>
        f.imports.filterMap (fun importPath =>
          (files.find? (fun t =>
              containsSub t.path.data importPath.data || t.name == importPath)).map
            (fun t => (f.id, t.id)))) from h files
  intro l
  induction l with
  | nil => rfl
  | cons f fs ih =>
    rw [List.flatMap_cons, List.flatMap_cons, List.filter_append, List.map_append, ih,
        filter_map_importRels files f]

/-- C6, counterexample. On the Scenario A snapshot the probing rule
(`findFileByPath` over the resolved path) finds the service file — the
first candidate, path plus extension, is present — yet the scan emits no
edges of the import kind, because the pipeline resolves by substring/name
matching, which fails on `../services/db`. -/
theorem c6_probe_unused_counterexample :
    ((findFileByPath (resolveImportPath "../services/db" "routes/users.ts")
        (mkFileMap (scanProject (some scenarioAFS) "/proj").files)).map
      (fun f => f.path) = some "services/db.ts") ∧
    (((scanProject (some scenarioAFS) "/proj").relationships.filter
        (fun r => r.type == RelationshipType.importRel)).length = 0) :=
  ⟨by decide, by decide⟩

/-- C7. Classification is two-phase with path patterns first: a path
matching the controller path row is classified controller whatever the
content matches (in particular when the content matches the model content
row), and content patterns are consulted only when no path pattern of any
role matched. -/
theorem c7_two_phase_precedence :
    (∀ (p c : String),
        controllerPathPats.any (fun r => reTest r p.data) = true →
        modelContentPats.any (fun r => reTest r c.data) = true →
        detectFileType p c = .controller) ∧
    (∀ (p c : String), firstRoleMatch FILE_TYPE_PATTERNS p.data = none →
        detectFileType p c = (firstRoleMatch CONTENT_TYPE_PATTERNS c.data).getD .unknown) := by
  constructor
  · intro p c h1 _h2
    have hfind : firstRoleMatch FILE_TYPE_PATTERNS p.data = some .controller := by
      simp [firstRoleMatch, FILE_TYPE_PATTERNS, List.find?, h1]
    simp [detectFileType, hfind]
  · intro p c h
    unfold detectFileType
    rw [h]
    cases firstRoleMatch CONTENT_TYPE_PATTERNS c.data <;> rfl

/-- C7, witness: a controller-pathed file with model-patterned content is
classified controller. -/
theorem c7_two_phase_precedence_witness :
    detectFileType "src/controllers/user.ts" "Schema" = .controller :=
  c7_two_phase_precedence.1 "src/controllers/user.ts" "Schema" (by decide) (by decide)

/-- C5, witness: the block extracted from a line that does name stripe gets
the keyword-critical tier. -/
theorem c5_importance_tiers_witness :
    c5Block.importance = importanceSpec .stripe c5Block.code.data :=
  c5_importance_tiers_amended "stripe.charges" "f.ts" c5Block .stripe
    (by
      have h : extractCriticalCodeBlocks "stripe.charges" "f.ts" = [c5Block] := by decide
      rw [h]
      exact List.mem_singleton_self _)
    (by decide)

/-! ## Line-range lemmas -/

/-- Newline counts of prefixes are monotone in the prefix length. -/
theorem countNlTake_mono (content : List Char) {i j : Nat} (h : i ≤ j) :
    countNlTake content i ≤ countNlTake content j := by
  unfold countNlTake
  have heq : content.take i = (content.take j).take i := by
    rw [List.take_take, Nat.min_eq_left h]
  rw [heq]
  exact List.Sublist.countP_le _ (List.take_sublist _ _)

/-- The brace scan returns a line at or after the start line: its returned
offset is at or after the scan start, and the fallback adds ten. -/
theorem feGo_ge (content : List Char) (startIndex : Nat) :
    ∀ (s : List Char) (i : Nat) (bc : Int) (inF : Bool), startIndex ≤ i →
      lineOfIdx content startIndex ≤
        feGo content (lineOfIdx content startIndex) s i bc inF := by
  intro s
  induction s with
  | nil =>
    intro i bc inF _
    unfold feGo
    exact Nat.le_add_right _ 10
  | cons ch rest ih =>
    intro i bc inF hle
    unfold feGo
    split
    · exact ih (i + 1) (bc + 1) true (Nat.le_succ_of_le hle)
    · split
      · split
        · unfold lineOfIdx
          exact Nat.succ_le_succ (countNlTake_mono content hle)
        · exact ih (i + 1) (bc - 1) inF (Nat.le_succ_of_le hle)
      · exact ih (i + 1) bc inF (Nat.le_succ_of_le hle)

theorem findFunctionEndLine_ge (content : List Char) (idx : Nat) :
    lineOfIdx content idx ≤ findFunctionEndLine content idx (lineOfIdx content idx) :=
  feGo_ge content idx (content.drop idx) idx 0 false (Nat.le_refl idx)

theorem mkBackendFunction_le (content : List Char) (pn : String) (m : Nat × Nat × Caps) :
    (mkBackendFunction content pn m).startLine ≤ (mkBackendFunction content pn m).endLine :=
  findFunctionEndLine_ge content m.fst

theorem mkBackendClass_le (content : List Char) (pn : String) (m : Nat × Nat × Caps) :
    (mkBackendClass content pn m).startLine ≤ (mkBackendClass content pn m).endLine :=
  findFunctionEndLine_ge content m.fst

/-- The function id pass only rewrites ids. -/
theorem mem_assignFuncIds (fp : String) :
    ∀ (n : Nat) (fs : List BackendFunction) (f : BackendFunction), f ∈ assignFuncIds fp n fs →
      ∃ f0 ∈ fs, f.startLine = f0.startLine ∧ f.endLine = f0.endLine := by
  intro n fs
  induction fs generalizing n with
  | nil => intro f hf; simp [assignFuncIds] at hf
  | cons x xs ih =>
    intro f hf
    rw [assignFuncIds] at hf
    rcases List.mem_cons.1 hf with h | h
    · subst h; exact ⟨x, List.mem_cons_self x xs, rfl, rfl⟩
    · obtain ⟨f0, hf0, h1, h2⟩ := ih (n + 1) f h
      exact ⟨f0, List.mem_cons_of_mem x hf0, h1, h2⟩

/-- The class id pass only rewrites ids. -/
theorem mem_assignClassIds (fp : String) :
    ∀ (n : Nat) (cs : List BackendClass) (c : BackendClass), c ∈ assignClassIds fp n cs →
      ∃ c0 ∈ cs, c.startLine = c0.startLine ∧ c.endLine = c0.endLine := by
  intro n cs
  induction cs generalizing n with
  | nil => intro c hc; simp [assignClassIds] at hc
  | cons x xs ih =>
    intro c hc
    rw [assignClassIds] at hc
    rcases List.mem_cons.1 hc with h | h
    · subst h; exact ⟨x, List.mem_cons_self x xs, rfl, rfl⟩
    · obtain ⟨c0, hc0, h1, h2⟩ := ih (n + 1) c h
      exact ⟨c0, List.mem_cons_of_mem x hc0, h1, h2⟩

/-- C8, amended. Every function and class fact satisfies start line at most
end line; the end line is not bounded by the file's line count, since the
brace scan falls back to the start line plus ten when no balancing brace
exists. -/
theorem c8_start_le_end_amended (content path : String) :
    (∀ f ∈ extractFunctions content path, f.startLine ≤ f.endLine) ∧
    (∀ c ∈ extractClasses content path, c.startLine ≤ c.endLine) := by
  constructor
  · intro f hf
    unfold extractFunctions at hf
    obtain ⟨f0, hf0, h1, h2⟩ := mem_assignFuncIds path 0 _ f hf
    rw [h1, h2]
    obtain ⟨e, he, hm⟩ := List.mem_flatMap.1 hf0
    obtain ⟨m, hmm, hmk⟩ := List.mem_map.1 hm
    rw [← hmk]
    exact mkBackendFunction_le content.data e.fst m
  · intro c hc
    unfold extractClasses at hc
    obtain ⟨c0, hc0, h1, h2⟩ := mem_assignClassIds path 0 _ c hc
    rw [h1, h2]
    obtain ⟨e, he, hm⟩ := List.mem_flatMap.1 hc0
    obtain ⟨m, hmm, hmk⟩ := List.mem_map.1 hm
    rw [← hmk]
    exact mkBackendClass_le content.data e.fst m

/-- C8, witness: the first fact of a concrete one-line content satisfies
the start/end ordering. -/
theorem c8_start_le_end_witness : c8Func.startLine ≤ c8Func.endLine :=
  (c8_start_le_end_amended "def g():" "p.py").1 c8Func
    (by
      have h : extractFunctions "def g():" "p.py" =
          [c8Func, { c8Func with id := "p.py-func-1" }] := by decide
      rw [h]
      exact List.mem_cons_self _ _)

/-- C8, counterexample. A brace-free one-line declaration gets the fallback
end line of its start line plus ten, which exceeds the single line of the
file, so end lines are not bounded by the file's line count. -/
theorem c8_endline_overrun_counterexample :
    ((extractFunctions "function f()" "p.ts").map (fun f => (f.startLine, f.endLine)) =
      [(1, 11), (1, 11)]) ∧
    (numLines (strL "function f()") = 1) :=
  ⟨by decide, by decide⟩

/-! ## Relationship endpoint closure -/

theorem mem_allProviders (prov : ThirdPartyProvider) : prov ∈ allProviders := by
  cases prov <;> simp [allProviders]

/-- The relationship id pass only rewrites ids. -/
theorem mem_assignRelIds :
    ∀ (n : Nat) (rs : List FileRelationship) (r : FileRelationship), r ∈ assignRelIds n rs →
      ∃ r0 ∈ rs, ∃ m, r = setRelId r0 m := by
  intro n rs
  induction rs generalizing n with
  | nil => intro r hr; simp [assignRelIds] at hr
  | cons x xs ih =>
    intro r hr
    rw [assignRelIds] at hr
    rcases List.mem_cons.1 hr with h | h
    · exact ⟨x, List.mem_cons_self x xs, n, h⟩
    · obtain ⟨r0, hr0, m, hm⟩ := ih (n + 1) r h
      exact ⟨r0, List.mem_cons_of_mem x hr0, m, hm⟩

/-- C9. Every relationship of the enhanced relationship list has its source
a file id of the list, and its target either a file id of the list or an
identifier of the fixed virtual external-provider namespace. -/
theorem c9_relationship_endpoints_closed (files : List BackendFile) (r : FileRelationship)
    (hr : r ∈ generateEnhancedRelationships files) :
    r.sourceId ∈ files.map (fun f => f.id) ∧
    (r.targetId ∈ files.map (fun f => f.id) ∨ r.targetId ∈ virtualProviderIds) := by
  unfold generateEnhancedRelationships at hr
  obtain ⟨r0, hr0, m, rfl⟩ := mem_assignRelIds 0 _ r hr
  obtain ⟨f, hf, hin⟩ := List.mem_flatMap.1 hr0
  rcases List.mem_append.1 hin with h | hapi
  · rcases List.mem_append.1 h with himp | hfc
    · obtain ⟨i, hi, hg⟩ := List.mem_filterMap.1 himp
      obtain ⟨t, hfind, hmk⟩ := Option.map_eq_some'.1 hg
      subst hmk
      constructor
      · exact List.mem_map.2 ⟨f, hf, rfl⟩
      · exact Or.inl (List.mem_map.2 ⟨t, List.mem_of_find?_eq_some hfind, rfl⟩)
    · obtain ⟨fn, hfn, hc⟩ := List.mem_flatMap.1 hfc
      obtain ⟨call, hcall, hg⟩ := List.mem_filterMap.1 hc
      cases hfp : call.filePath with
      | none => simp [hfp] at hg
      | some fp =>
        simp only [hfp] at hg
        cases hext : call.isExternal with
        | false => simp [hext] at hg
        | true =>
          simp [hext] at hg
          obtain ⟨t, hfind, hmk⟩ := hg
          subst hmk
          constructor
          · exact List.mem_map.2 ⟨f, hf, rfl⟩
          · exact Or.inl (List.mem_map.2 ⟨t, List.mem_of_find?_eq_some hfind, rfl⟩)
  · obtain ⟨block, hblock, hg⟩ := List.mem_filterMap.1 hapi
    cases ht : (block.type == CodeBlockType.third_party) with
    | false => simp [ht] at hg
    | true =>
      simp [ht] at hg
      obtain ⟨prov, hprov, hmk⟩ := hg
      subst hmk
      constructor
      · exact List.mem_map.2 ⟨f, hf, rfl⟩
      · exact Or.inr (List.mem_map.2 ⟨prov, mem_allProviders prov, rfl⟩)

/-- C9, witness: the api-call edge of a one-file snapshot has its source
among the file ids and its target in the virtual provider namespace. -/
theorem c9_relationship_endpoints_witness :
    c9Rel.sourceId ∈ [c9File].map (fun f => f.id) ∧
    (c9Rel.targetId ∈ [c9File].map (fun f => f.id) ∨ c9Rel.targetId ∈ virtualProviderIds) :=
  c9_relationship_endpoints_closed [c9File] c9Rel
    (by
      have h : generateEnhancedRelationships [c9File] = [c9Rel] := by decide
      rw [h]
      exact List.mem_singleton_self _)

end Scanner
